import Mathlib

/-!
Verification development for the RBAC core of the SaaS clinic service:
entity store (Permission, Role, RolePermission, UserRole, User), the
permission resolver, the tenant-scoped cache with its key scheme, the
signal-driven invalidation, and the assign/revoke mutation boundary.

The definitions below are shallow embeddings of the Python source:

* models: `apps/users/models/roles_and_permissions.py`,
  `apps/users/models/users.py`
* views: `apps/users/views/roles_and_permissions.py`
* serializers: `apps/users/serializers/roles_and_permissions.py`
* cache layer: `utils/caching.py`
* signal handlers: `apps/users/signals/update_cache_on_permission_change.py`

Django ORM queries are embedded with their generated join semantics:

* Traversing a many-to-many field in a filter joins through the through
  table without any condition on the through row itself; the conditions
  written after the traversal apply to the target table.  In
  `User.get_all_permissions` the lookups `roles_permission__is_active`
  and `roles_permission__is_deleted` therefore constrain the `roles`
  table (the target of the reverse M2M `roles_permission`), not the
  `role_permissions` through rows.
* A reverse foreign-key lookup such as `rolepermission__is_active` in
  `Role.get_permissions_list` opens its own join to `role_permissions`,
  independent of the join introduced by the related manager
  `self.permissions`; in particular the extra join is not constrained to
  the role of the related manager.
* All lookups appearing in one `.filter(...)` call along the same
  relation path share a single join (one existential witness per path).
* `QuerySet.update(...)` runs a bulk SQL update; it does not call
  `Model.save` on the rows and therefore sends no `post_save` signal.
* Primary keys are unique; an instance `save` is embedded as an in-place
  update of the rows carrying that id.

Machine integers do not overflow in any of the embedded logic, so ids are
modeled as `Nat` and strings as Lean `String`.
-/

namespace SaasRbac

/-- Row of the `permissions` table (`Permission(BaseAuditTrailModel)`). -/
structure Permission where
  id : Nat
  name : String
  is_active : Bool
  is_deleted : Bool
deriving DecidableEq, Repr

/-- Row of the `roles` table (`Role(BaseAuditTrailModel)`). -/
structure Role where
  id : Nat
  name : String
  is_system_role : Bool
  is_active : Bool
  is_deleted : Bool
deriving DecidableEq, Repr

/-- Row of the `role_permissions` through table (`RolePermission`). -/
structure RolePermission where
  id : Nat
  role_id : Nat
  permission_id : Nat
  is_active : Bool
  is_deleted : Bool
deriving DecidableEq, Repr

/-- Row of the `user_roles` through table (`UserRole`). -/
structure UserRole where
  id : Nat
  user_id : Nat
  role_id : Nat
  is_active : Bool
  is_deleted : Bool
deriving DecidableEq, Repr

/-- Row of the `auth_user` table, restricted to the fields the RBAC core
reads (`user.id`, `user.is_active`, `user.is_superuser`). -/
structure User where
  id : Nat
  is_active : Bool
  is_superuser : Bool
deriving DecidableEq, Repr

/-- One tenant partition of the entity store.  `rp_seq` and `ur_seq` are
the auto-increment id sequences of the two association tables. -/
structure Store where
  permissions : List Permission
  roles : List Role
  role_permissions : List RolePermission
  user_roles : List UserRole
  users : List User
  rp_seq : Nat
  ur_seq : Nat
deriving Repr

/-- Embedding of `User.get_all_permissions` (models/users.py, lines
96-113).  The single `.filter(...)` call produces one join chain
`permissions -> role_permissions -> roles -> user_roles`; the conditions
`roles_permission__is_active=True` / `roles_permission__is_deleted=False`
land on the `roles` table (target of the reverse M2M), and
`roles_permission__user_roles__*` land on `user_roles`.  No condition at
all constrains the flags of the `role_permissions` through row.
`.values_list(name).distinct()` is the final `dedup` of names. -/
def get_all_permissions (s : Store) (u : User) : List String :=
  ((s.permissions.filter (fun p =>
      p.is_active && !p.is_deleted &&
      (s.role_permissions.any (fun x =>
        x.permission_id == p.id &&
        (s.roles.any (fun r =>
          r.id == x.role_id && r.is_active && !r.is_deleted &&
          (s.user_roles.any (fun y =>
            y.role_id == r.id && y.user_id == u.id &&
            y.is_active && !y.is_deleted)))))))).map Permission.name).dedup

/-- Embedding of `User.has_permission` (models/users.py, lines 115-117):
membership of the name in `get_all_permissions`; note the source has no
superuser branch here. -/
def has_permission (s : Store) (u : User) (permission_name : String) : Bool :=
  (get_all_permissions s u).contains permission_name

/-- Embedding of `User.has_any_permission` (set intersection is
non-empty). -/
def has_any_permission (s : Store) (u : User) (permission_names : List String) : Bool :=
  permission_names.any (fun n => (get_all_permissions s u).contains n)

/-- Embedding of `User.has_all_permissions` (subset check). -/
def has_all_permissions (s : Store) (u : User) (permission_names : List String) : Bool :=
  permission_names.all (fun n => (get_all_permissions s u).contains n)

/-- Embedding of `Role.get_permissions_list` (roles_and_permissions.py,
lines 63-81), ignoring the `@cached` wrapper (modeled separately).  The
related manager `self.permissions` joins through `role_permissions`
constrained to this role but with no condition on that through row; the
`rolepermission__is_active` / `rolepermission__is_deleted` lookups open a
second, independent join to `role_permissions` that is constrained to
the permission only, not to this role.  The flags of the role itself are
never consulted. -/
def get_permissions_list (s : Store) (role : Role) : List String :=
  ((s.permissions.filter (fun p =>
      (s.role_permissions.any (fun x =>
        x.role_id == role.id && x.permission_id == p.id)) &&
      p.is_active && !p.is_deleted &&
      (s.role_permissions.any (fun x2 =>
        x2.permission_id == p.id && x2.is_active && !x2.is_deleted)))).map
    Permission.name).dedup

/-- Decision of a guarded view entry: the `require_permissions` and
`require_any_permission` decorators answer with 401, 403, or run the
wrapped view. -/
inductive GateDecision where
  | unauthorized
  | forbidden
  | allowed
deriving DecidableEq, Repr

/-- Embedding of the `require_permissions` decorator
(apps/permissions.py, lines 181-204): 401 when unauthenticated, then the
superuser short-circuit, then `has_all_permissions`. -/
def require_permissions (s : Store) (authenticated : Bool) (u : User)
    (permission_codenames : List String) : GateDecision :=
  if !authenticated then .unauthorized
  else if u.is_superuser then .allowed
  else if !(has_all_permissions s u permission_codenames) then .forbidden
  else .allowed

/-- Embedding of the `require_any_permission` decorator
(apps/permissions.py, lines 216-239). -/
def require_any_permission (s : Store) (authenticated : Bool) (u : User)
    (permission_codenames : List String) : GateDecision :=
  if !authenticated then .unauthorized
  else if u.is_superuser then .allowed
  else if !(has_any_permission s u permission_codenames) then .forbidden
  else .allowed

/-- The shared cache backend (`django.core.cache`), modeled as a partial
map from string keys to cached permission-name lists.  Tenants share this
backend; only the key scheme separates them. -/
def Cache : Type := String → Option (List String)

/-- Embedding of `cache.get`. -/
def cache_get (c : Cache) (k : String) : Option (List String) := c k

/-- Embedding of `cache.set`. -/
def cache_set (c : Cache) (k : String) (v : List String) : Cache :=
  fun k2 => if k2 = k then some v else c k2

/-- Embedding of `cache.delete`. -/
def cache_delete (c : Cache) (k : String) : Cache :=
  fun k2 => if k2 = k then none else c k2

/-- The empty cache backend (every lookup misses). -/
def empty_cache : Cache := fun _ => none

/-- Key produced by the `tenant_aware` branch of the `cached` decorator
and by every invalidation helper: the literal format
`f"tenant:{schema}:{rest}"` (utils/caching.py, lines 101-104 and the
signal module). -/
def tenant_scoped_key (schema rest : String) : String :=
  "tenant:" ++ schema ++ ":" ++ rest

/-- Cache key of the cached `Role.get_permissions_list` read path: the
template `CacheConfig.ROLE_PERMISSIONS = "role_perms:{id}"` with the
`{id}` placeholder resolved to `instance.id` by
`_build_key_from_template` (the method takes no further arguments, so no
parameter hash is appended), then tenant-prefixed.  The invalidation
side (`invalidate_role_permissions_cache`) builds the same string
directly as `f"tenant:{schema}:role_perms:{role_id}"`. -/
def role_perms_key (schema : String) (role_id : Nat) : String :=
  tenant_scoped_key schema ("role_perms:" ++ toString role_id)

/-- Cache key used by `invalidate_user_permissions_cache` and
`invalidate_all_user_permissions_cache`:
`f"tenant:{schema}:user_perms:{user_id}"`. -/
def user_perms_key (schema : String) (user_id : Nat) : String :=
  tenant_scoped_key schema ("user_perms:" ++ toString user_id)

/-- Embedding of the `@cached(CacheConfig.ROLE_PERMISSIONS, ...)` wrapper
around `Role.get_permissions_list` (utils/caching.py, `cached`): look up
the tenant-scoped key, return the hit, otherwise compute, store and
return.  The decorator treats any non-`None` value as a hit. -/
def cached_get_permissions_list (schema : String) (s : Store) (c : Cache)
    (role : Role) : List String × Cache :=
  let k := role_perms_key schema role.id
  match cache_get c k with
  | some v => (v, c)
  | none =>
    let v := get_permissions_list s role
    (v, cache_set c k v)

/-- Embedding of `invalidate_role_permissions_cache` (signal module,
lines 48-59). -/
def invalidate_role_permissions_cache (schema : String) (c : Cache)
    (role_id : Nat) : Cache :=
  cache_delete c (role_perms_key schema role_id)

/-- Embedding of `invalidate_user_permissions_cache` (signal module,
lines 62-73). -/
def invalidate_user_permissions_cache (schema : String) (c : Cache)
    (user_id : Nat) : Cache :=
  cache_delete c (user_perms_key schema user_id)

/-- Embedding of `invalidate_all_user_permissions_cache` (signal module,
lines 20-45): delete the `user_perms` key of every active user of the
current tenant. -/
def invalidate_all_user_permissions_cache (schema : String) (s : Store)
    (c : Cache) : Cache :=
  ((s.users.filter (fun u => u.is_active)).map User.id).foldl
    (fun acc uid => cache_delete acc (user_perms_key schema uid)) c

/-- Embedding of the `post_save` receiver
`invalidate_cache_on_role_permission_change` (signal module, lines
134-148).  It runs on every instance save of a `RolePermission` —
creation, restore, or single-instance soft delete — and ignores the
`created` flag. -/
def invalidate_cache_on_role_permission_change (schema : String) (s : Store)
    (c : Cache) (created : Bool) (inst : RolePermission) : Cache :=
  invalidate_all_user_permissions_cache schema s
    (invalidate_role_permissions_cache schema c inst.role_id)

/-- Embedding of the `post_save` receiver
`invalidate_cache_on_user_role_change` (signal module, lines 167-178).
It runs on every instance save of a `UserRole` and ignores `created`. -/
def invalidate_cache_on_user_role_change (schema : String) (c : Cache)
    (created : Bool) (inst : UserRole) : Cache :=
  invalidate_user_permissions_cache schema c inst.user_id

/-- Embedding of the `post_delete` receiver
`invalidate_cache_on_user_role_delete` (signal module, lines 181-189),
covering hard removal of a `UserRole` row. -/
def invalidate_cache_on_user_role_delete (schema : String) (c : Cache)
    (inst : UserRole) : Cache :=
  invalidate_user_permissions_cache schema c inst.user_id

/-- Error surface of the mutation entry points.  `validation` embeds
`rest_framework.serializers.ValidationError` (HTTP 400), `not_found`
embeds a handler returning HTTP 404, and `permission_denied` embeds the
DRF `PermissionDenied` class of forbidden-operation errors (HTTP 403) —
the RBAC mutation code never constructs the latter. -/
inductive ApiError where
  | validation (msg : String)
  | not_found (msg : String)
  | permission_denied (msg : String)
deriving DecidableEq, Repr

/-- Returns true exactly when a mutation result is the 403 class of
error (DRF `PermissionDenied`). -/
def is_permission_denied (r : Except ApiError (Store × Cache)) : Bool :=
  match r with
  | .error (.permission_denied _) => true
  | _ => false

/-- Returns true when a mutation result is a success. -/
def mutation_ok (r : Except ApiError (Store × Cache)) : Bool :=
  match r with
  | .ok _ => true
  | .error _ => false

/-- Commit-or-rollback wrapper: the views run each mutation inside
`transaction.atomic()`, so a raised error leaves the store at its
pre-call state (and the revoke/assign flows reach no cache write before
their error points). -/
def run_mutation (s : Store) (c : Cache)
    (r : Except ApiError (Store × Cache)) : Store × Cache :=
  match r with
  | .ok sc => sc
  | .error _ => (s, c)

/-- Embedding of `RolePermissionSerializer.validate_role_id`
(serializers/roles_and_permissions.py, lines 149-159): the role must
exist among non-deleted rows and must not be a system role. -/
def validate_role_id (s : Store) (value : Nat) : Except ApiError Nat :=
  match s.roles.find? (fun r => r.id == value && !r.is_deleted) with
  | some role =>
    if role.is_system_role then
      .error (.validation "Cannot modify permissions for system roles.")
    else .ok value
  | none => .error (.validation "Role not found.")

/-- Embedding of `RolePermissionSerializer.validate_permission_ids`
(lines 161-180).  `value = list(set(value))` silently deduplicates;
`dedup` keeps the first occurrence of each id, and every later use of
the list (an `id__in` filter and a length comparison against the found
rows) depends only on the underlying set, for which `dedup` is a
faithful representative.  The empty-list branch also covers the
`allow_empty=False` rejection of the `ListField`. -/
def validate_permission_ids (s : Store) (value : List Nat) :
    Except ApiError (List Nat) :=
  if value.isEmpty then
    .error (.validation "At least one permission is required.")
  else
    let v := value.dedup
    let existing :=
      (s.permissions.filter (fun p => v.contains p.id && !p.is_deleted)).map
        Permission.id
    let invalid := v.filter (fun i => !(existing.contains i))
    if invalid.isEmpty then .ok v
    else .error (.validation "Invalid permission IDs.")

/-- Embedding of `UserRoleSerializer.validate_user_id` (lines 193-200):
the user must exist and be active. -/
def validate_user_id (s : Store) (value : Nat) : Except ApiError Nat :=
  match s.users.find? (fun u => u.id == value && u.is_active) with
  | some _ => .ok value
  | none => .error (.validation "User not found or inactive.")

/-- Embedding of `UserRoleSerializer.validate_role_ids` (lines 202-220):
same silent deduplication; the referenced roles must be non-deleted and
active. -/
def validate_role_ids (s : Store) (value : List Nat) :
    Except ApiError (List Nat) :=
  if value.isEmpty then
    .error (.validation "At least one role is required.")
  else
    let v := value.dedup
    let existing :=
      (s.roles.filter (fun r =>
        v.contains r.id && !r.is_deleted && r.is_active)).map Role.id
    let invalid := v.filter (fun i => !(existing.contains i))
    if invalid.isEmpty then .ok v
    else .error (.validation "Invalid role IDs.")

/-- Row transformer of the bulk revoke in `RoleViewSet.revoke_permissions`
(views, lines 289-293): the SQL effect of
`filter(role=role, permission_id__in=ids, is_deleted=False)
.update(is_deleted=True, is_active=False)` on one row. -/
def rp_revoke_update (role : Role) (pids : List Nat)
    (x : RolePermission) : RolePermission :=
  if x.role_id == role.id && pids.contains x.permission_id &&
      !x.is_deleted then
    { x with is_deleted := true, is_active := false }
  else x

/-- Row transformer of the restore `save` in
`RoleViewSet.assign_permissions`: the row with the given primary key id
gets `is_deleted=False, is_active=True`. -/
def rp_restore_update (xid : Nat) (y : RolePermission) : RolePermission :=
  if y.id == xid then { y with is_deleted := false, is_active := true }
  else y

/-- Row transformer of the bulk revoke in `UserRoleViewSet.revoke_roles`
(views, lines 455-459). -/
def ur_revoke_update (user : User) (rids : List Nat)
    (y : UserRole) : UserRole :=
  if y.user_id == user.id && rids.contains y.role_id && !y.is_deleted then
    { y with is_deleted := true, is_active := false }
  else y

/-- Row transformer of the restore `save` in
`UserRoleViewSet.assign_roles`. -/
def ur_restore_update (yid : Nat) (z : UserRole) : UserRole :=
  if z.id == yid then { z with is_deleted := false, is_active := true }
  else z

/-- Embedding of the `get_or_create`-then-restore step of
`RoleViewSet.assign_permissions` (views, lines 223-238) for one
permission.  `get_or_create` matches the unique `(role, permission)`
pair regardless of soft-delete flags; a fresh row is created with the
defaults `is_active=True, is_deleted=False`; an existing soft-deleted
row is restored in place.  Both the create and the restore go through
`Model.save`, so the `RolePermission` `post_save` receiver runs; the
already-live case saves nothing and triggers no signal. -/
def assign_one_permission (schema : String) (role : Role) (p : Permission)
    (sc : Store × Cache) : Store × Cache :=
  match sc.1.role_permissions.find? (fun x =>
      x.role_id == role.id && x.permission_id == p.id) with
  | none =>
    let row : RolePermission :=
      { id := sc.1.rp_seq, role_id := role.id, permission_id := p.id,
        is_active := true, is_deleted := false }
    let s2 := { sc.1 with role_permissions := sc.1.role_permissions ++ [row],
                          rp_seq := sc.1.rp_seq + 1 }
    (s2, invalidate_cache_on_role_permission_change schema s2 sc.2 true row)
  | some x =>
    if x.is_deleted then
      let s2 := { sc.1 with
        role_permissions :=
          sc.1.role_permissions.map (rp_restore_update x.id) }
      (s2, invalidate_cache_on_role_permission_change schema s2 sc.2 false
        { x with is_deleted := false, is_active := true })
    else sc

/-- Embedding of `RoleViewSet.assign_permissions` (views, lines
191-268): serializer validation, role lookup among non-deleted rows,
`id__in` permission fetch with a completeness check, then the
`get_or_create`/restore loop inside one transaction. -/
def assign_permissions (schema : String) (s : Store) (c : Cache)
    (role_id : Nat) (permission_ids : List Nat) :
    Except ApiError (Store × Cache) :=
  match validate_role_id s role_id with
  | .error e => .error e
  | .ok rid =>
    match validate_permission_ids s permission_ids with
    | .error e => .error e
    | .ok pids =>
      match s.roles.find? (fun r => r.id == rid && !r.is_deleted) with
      | none => .error (.not_found "Role not found")
      | some role =>
        let perms := s.permissions.filter (fun p =>
          pids.contains p.id && !p.is_deleted)
        if perms.length == pids.length then
          .ok (perms.foldl
            (fun sc p => assign_one_permission schema role p sc) (s, c))
        else .error (.validation "Permissions not found")

/-- Embedding of `RoleViewSet.revoke_permissions` (views, lines
270-318): serializer validation, role lookup, then the bulk
`RolePermission.objects.filter(role=role, permission_id__in=ids,
is_deleted=False).update(is_deleted=True, is_active=False)`.  The bulk
`update` sends no `post_save` signal, so the cache is returned
untouched. -/
def revoke_permissions (schema : String) (s : Store) (c : Cache)
    (role_id : Nat) (permission_ids : List Nat) :
    Except ApiError (Store × Cache) :=
  match validate_role_id s role_id with
  | .error e => .error e
  | .ok rid =>
    match validate_permission_ids s permission_ids with
    | .error e => .error e
    | .ok pids =>
      match s.roles.find? (fun r => r.id == rid && !r.is_deleted) with
      | none => .error (.not_found "Role not found")
      | some role =>
        let s2 := { s with
          role_permissions :=
            s.role_permissions.map (rp_revoke_update role pids) }
        .ok (s2, c)

/-- Embedding of the `get_or_create`-then-restore step of
`UserRoleViewSet.assign_roles` (views, lines 381-398) for one role;
mirrors `assign_one_permission`, with the `UserRole` `post_save`
receiver. -/
def assign_one_role (schema : String) (user : User) (role : Role)
    (sc : Store × Cache) : Store × Cache :=
  match sc.1.user_roles.find? (fun y =>
      y.user_id == user.id && y.role_id == role.id) with
  | none =>
    let row : UserRole :=
      { id := sc.1.ur_seq, user_id := user.id, role_id := role.id,
        is_active := true, is_deleted := false }
    let s2 := { sc.1 with user_roles := sc.1.user_roles ++ [row],
                          ur_seq := sc.1.ur_seq + 1 }
    (s2, invalidate_cache_on_user_role_change schema sc.2 true row)
  | some y =>
    if y.is_deleted then
      let s2 := { sc.1 with
        user_roles := sc.1.user_roles.map (ur_restore_update y.id) }
      (s2, invalidate_cache_on_user_role_change schema sc.2 false
        { y with is_deleted := false, is_active := true })
    else sc

/-- Embedding of `UserRoleViewSet.assign_roles` (views, lines 353-438):
serializer validation, active-user lookup, role fetch restricted to
active non-deleted rows with a completeness check, then the
`get_or_create`/restore loop. -/
def assign_roles (schema : String) (s : Store) (c : Cache) (user_id : Nat)
    (role_ids : List Nat) : Except ApiError (Store × Cache) :=
  match validate_user_id s user_id with
  | .error e => .error e
  | .ok uid =>
    match validate_role_ids s role_ids with
    | .error e => .error e
    | .ok rids =>
      match s.users.find? (fun u => u.id == uid && u.is_active) with
      | none => .error (.not_found "User not found or inactive")
      | some user =>
        let roles := s.roles.filter (fun r =>
          rids.contains r.id && !r.is_deleted && r.is_active)
        if roles.length == rids.length then
          .ok (roles.foldl (fun sc r => assign_one_role schema user r sc)
            (s, c))
        else .error (.validation "Roles not found")

/-- Embedding of `UserRoleViewSet.revoke_roles` (views, lines 440-495):
serializer validation, active-user lookup, then the bulk
`UserRole.objects.filter(user=user, role_id__in=ids,
is_deleted=False).update(is_deleted=True, is_active=False)`; again no
signal fires, so the cache is untouched. -/
def revoke_roles (schema : String) (s : Store) (c : Cache) (user_id : Nat)
    (role_ids : List Nat) : Except ApiError (Store × Cache) :=
  match validate_user_id s user_id with
  | .error e => .error e
  | .ok uid =>
    match validate_role_ids s role_ids with
    | .error e => .error e
    | .ok rids =>
      match s.users.find? (fun u => u.id == uid && u.is_active) with
      | none => .error (.not_found "User not found or inactive")
      | some user =>
        let s2 := { s with
          user_roles := s.user_roles.map (ur_revoke_update user rids) }
        .ok (s2, c)

/-- Embedding of `PermissionViewSet.perform_destroy` (views, lines
55-59) applied to an instance fetched from the non-deleted queryset:
soft delete by setting both flags; the `Permission` `post_save`
receiver fires with `created=False` and sweeps all user caches. -/
def permission_destroy (schema : String) (s : Store) (c : Cache)
    (pid : Nat) : Except ApiError (Store × Cache) :=
  match s.permissions.find? (fun p => p.id == pid && !p.is_deleted) with
  | none => .error (.not_found "Not found")
  | some _ =>
    let s2 := { s with permissions := s.permissions.map (fun p =>
      if p.id == pid then { p with is_deleted := true, is_active := false }
      else p) }
    .ok (s2, invalidate_all_user_permissions_cache schema s2 c)

/-- Embedding of `PermissionViewSet.restore` (views, lines 69-87):
fetch among deleted rows, clear both flags; the same `post_save`
receiver fires with `created=False`. -/
def permission_restore (schema : String) (s : Store) (c : Cache)
    (pid : Nat) : Except ApiError (Store × Cache) :=
  match s.permissions.find? (fun p => p.id == pid && p.is_deleted) with
  | none => .error (.not_found "Permission not found or not deleted")
  | some _ =>
    let s2 := { s with permissions := s.permissions.map (fun p =>
      if p.id == pid then { p with is_deleted := false, is_active := true }
      else p) }
    .ok (s2, invalidate_all_user_permissions_cache schema s2 c)

/-- Embedding of `RoleViewSet.perform_destroy` (views, lines 160-170):
system roles are rejected with a `ValidationError` before any write;
otherwise soft delete both flags, after which the `Role` `post_save`
receiver (lines 102-115, `created=False`) evicts the role cache entry
and sweeps all user caches. -/
def role_destroy (schema : String) (s : Store) (c : Cache) (rid : Nat) :
    Except ApiError (Store × Cache) :=
  match s.roles.find? (fun r => r.id == rid && !r.is_deleted) with
  | none => .error (.not_found "Not found")
  | some role =>
    if role.is_system_role then
      .error (.validation "Cannot delete system roles.")
    else
      let s2 := { s with roles := s.roles.map (fun r =>
        if r.id == rid then { r with is_deleted := true, is_active := false }
        else r) }
      .ok (s2, invalidate_all_user_permissions_cache schema s2
        (invalidate_role_permissions_cache schema c rid))

/-- Embedding of `RoleViewSet.restore` (views, lines 172-189): fetch
among deleted rows, clear both flags; same `Role` signal effects. -/
def role_restore (schema : String) (s : Store) (c : Cache) (rid : Nat) :
    Except ApiError (Store × Cache) :=
  match s.roles.find? (fun r => r.id == rid && r.is_deleted) with
  | none => .error (.not_found "Role not found or not deleted")
  | some _ =>
    let s2 := { s with roles := s.roles.map (fun r =>
      if r.id == rid then { r with is_deleted := false, is_active := true }
      else r) }
    .ok (s2, invalidate_all_user_permissions_cache schema s2
      (invalidate_role_permissions_cache schema c rid))

/-- Embedding of creation of a `Permission` through
`PermissionViewSet.create` with `PermissionSerializer.validate_name`
(serializers, lines 22-38): trimmed non-empty unique name; the row is
created with the `BaseAuditTrailModel` defaults `is_active=True,
is_deleted=False` (both flags are read-only in the serializer).  The
`Permission` `post_save` receiver skips invalidation when
`created=True`, so the cache is untouched. -/
def permission_create (s : Store) (c : Cache) (pid : Nat) (name : String) :
    Except ApiError (Store × Cache) :=
  if name.trim == "" then
    .error (.validation "Permission name cannot be empty.")
  else if s.permissions.any (fun p =>
      p.name == name.trim && !p.is_deleted) then
    .error (.validation "Permission with this name already exists.")
  else
    .ok ({ s with permissions := s.permissions ++
      [{ id := pid, name := name.trim, is_active := true,
         is_deleted := false }] }, c)

/-- Embedding of creation of a `Role` through `RoleViewSet.create` with
`RoleCreateUpdateSerializer` (serializers, lines 108-136): only `name`
and `description` are writable, `is_system_role` defaults to `False`,
and the audit flags take the model defaults.  The `Role` `post_save`
receiver skips invalidation when `created=True`. -/
def role_create (s : Store) (c : Cache) (rid : Nat) (name : String) :
    Except ApiError (Store × Cache) :=
  if name.trim == "" then
    .error (.validation "Role name cannot be empty.")
  else if s.roles.any (fun r => r.name == name.trim && !r.is_deleted) then
    .error (.validation "Role with this name already exists.")
  else
    .ok ({ s with roles := s.roles ++
      [{ id := rid, name := name.trim, is_system_role := false,
         is_active := true, is_deleted := false }] }, c)

/-- Soft-delete flag consistency of one row: a row is never both active
and deleted. -/
def flags_ok (active deleted : Bool) : Prop := (active && deleted) = false

/-- The flag-consistency invariant over all four RBAC tables (claim of
the `BaseAuditTrailModel` lifecycle: created active and not deleted;
soft delete and restore always set both flags together). -/
def store_flags_ok (s : Store) : Prop :=
  (∀ p ∈ s.permissions, flags_ok p.is_active p.is_deleted) ∧
  (∀ r ∈ s.roles, flags_ok r.is_active r.is_deleted) ∧
  (∀ x ∈ s.role_permissions, flags_ok x.is_active x.is_deleted) ∧
  (∀ y ∈ s.user_roles, flags_ok y.is_active y.is_deleted)

/-- Primary-key uniqueness of the `roles` table. -/
def roles_ids_unique (s : Store) : Prop :=
  s.roles.Pairwise (fun a b => a.id ≠ b.id)

/-- Primary-key uniqueness of the `permissions` table. -/
def permissions_ids_unique (s : Store) : Prop :=
  s.permissions.Pairwise (fun a b => a.id ≠ b.id)

/-- Primary-key uniqueness of the `auth_user` table. -/
def users_ids_unique (s : Store) : Prop :=
  s.users.Pairwise (fun a b => a.id ≠ b.id)

/-- Primary-key uniqueness of the `role_permissions` table. -/
def rp_ids_unique (s : Store) : Prop :=
  s.role_permissions.Pairwise (fun a b => a.id ≠ b.id)

/-- The `unique_together (role, permission)` constraint, which holds
regardless of soft-delete state. -/
def rp_pairs_unique (s : Store) : Prop :=
  s.role_permissions.Pairwise (fun a b =>
    ¬(a.role_id = b.role_id ∧ a.permission_id = b.permission_id))

/-- Primary-key uniqueness of the `user_roles` table. -/
def ur_ids_unique (s : Store) : Prop :=
  s.user_roles.Pairwise (fun a b => a.id ≠ b.id)

/-- The `unique_together (user, role)` constraint, which holds
regardless of soft-delete state. -/
def ur_pairs_unique (s : Store) : Prop :=
  s.user_roles.Pairwise (fun a b =>
    ¬(a.user_id = b.user_id ∧ a.role_id = b.role_id))

/-- Fixture for C1: a fully valid chain user -> UserRole -> role ->
permission in which the only `RolePermission` row linking the role to
the permission is soft-deleted (`is_deleted=True, is_active=False`). -/
def store_c1 : Store :=
  { permissions := [{ id := 1, name := "doc.write", is_active := true,
                      is_deleted := false }],
    roles := [{ id := 1, name := "editor", is_system_role := false,
                is_active := true, is_deleted := false }],
    role_permissions := [{ id := 1, role_id := 1, permission_id := 1,
                           is_active := false, is_deleted := true }],
    user_roles := [{ id := 1, user_id := 1, role_id := 1,
                     is_active := true, is_deleted := false }],
    users := [{ id := 1, is_active := true, is_superuser := false }],
    rp_seq := 2, ur_seq := 2 }

/-- The user of the C1 fixture. -/
def user_c1 : User := { id := 1, is_active := true, is_superuser := false }

/-- Fixture for C2: role `editor` (id 1) holds the live permission
`doc.write` (id 1) through a live association; one active user exists in
the tenant. -/
def store_c2 : Store :=
  { permissions := [{ id := 1, name := "doc.write", is_active := true,
                      is_deleted := false }],
    roles := [{ id := 1, name := "editor", is_system_role := false,
                is_active := true, is_deleted := false }],
    role_permissions := [{ id := 1, role_id := 1, permission_id := 1,
                           is_active := true, is_deleted := false }],
    user_roles := [{ id := 1, user_id := 1, role_id := 1,
                     is_active := true, is_deleted := false }],
    users := [{ id := 1, is_active := true, is_superuser := false }],
    rp_seq := 2, ur_seq := 2 }

/-- The role of the C2 fixture. -/
def role_c2 : Role :=
  { id := 1, name := "editor", is_system_role := false, is_active := true,
    is_deleted := false }

/-- Cache state of the C2 scenario after the first (cache-warming) call
to the cached read path. -/
def warmed_cache_c2 : Cache :=
  (cached_get_permissions_list "clinic1" store_c2 empty_cache role_c2).2

/-- Store and cache of the C2 scenario after
`revoke_permissions(role 1, [permission 1])` commits. -/
def after_revoke_c2 : Store × Cache :=
  run_mutation store_c2 warmed_cache_c2
    (revoke_permissions "clinic1" store_c2 warmed_cache_c2 1 [1])

/-- Fixture for C4: a system role (id 1) holding one live permission. -/
def store_c4 : Store :=
  { permissions := [{ id := 1, name := "doc.write", is_active := true,
                      is_deleted := false }],
    roles := [{ id := 1, name := "admin", is_system_role := true,
                is_active := true, is_deleted := false }],
    role_permissions := [{ id := 1, role_id := 1, permission_id := 1,
                           is_active := true, is_deleted := false }],
    user_roles := [], users := [], rp_seq := 2, ur_seq := 1 }

/-- The system role of the C4 fixture. -/
def role_c4 : Role :=
  { id := 1, name := "admin", is_system_role := true, is_active := true,
    is_deleted := false }

/-- Fixture for C5: a tenant with a live role and permission but no
`UserRole` rows at all. -/
def store_c5 : Store :=
  { permissions := [{ id := 1, name := "doc.write", is_active := true,
                      is_deleted := false }],
    roles := [{ id := 1, name := "editor", is_system_role := false,
                is_active := true, is_deleted := false }],
    role_permissions := [{ id := 1, role_id := 1, permission_id := 1,
                           is_active := true, is_deleted := false }],
    user_roles := [], users := [{ id := 9, is_active := true,
                                  is_superuser := true }],
    rp_seq := 2, ur_seq := 1 }

/-- The superuser of the C5 fixture; holds no roles. -/
def superuser_c5 : User := { id := 9, is_active := true, is_superuser := true }

/-- Fixture for C6: permission `doc.write` is linked to role `editor`
(id 1) by a soft-deleted row and to role `viewer` (id 2) by an active
row; both roles and the permission are live. -/
def store_c6 : Store :=
  { permissions := [{ id := 1, name := "doc.write", is_active := true,
                      is_deleted := false }],
    roles := [{ id := 1, name := "editor", is_system_role := false,
                is_active := true, is_deleted := false },
              { id := 2, name := "viewer", is_system_role := false,
                is_active := true, is_deleted := false }],
    role_permissions := [{ id := 1, role_id := 1, permission_id := 1,
                           is_active := false, is_deleted := true },
                         { id := 2, role_id := 2, permission_id := 1,
                           is_active := true, is_deleted := false }],
    user_roles := [], users := [], rp_seq := 3, ur_seq := 1 }

/-- The `editor` role of the C6 fixture (its association row is
soft-deleted). -/
def role_c6_editor : Role :=
  { id := 1, name := "editor", is_system_role := false, is_active := true,
    is_deleted := false }

/-- Second fixture for C6: the role itself is soft-deleted and inactive
while its association row and the permission are live. -/
def store_c6b : Store :=
  { permissions := [{ id := 1, name := "doc.write", is_active := true,
                      is_deleted := false }],
    roles := [{ id := 1, name := "editor", is_system_role := false,
                is_active := false, is_deleted := true }],
    role_permissions := [{ id := 1, role_id := 1, permission_id := 1,
                           is_active := true, is_deleted := false }],
    user_roles := [], users := [], rp_seq := 2, ur_seq := 1 }

/-- The soft-deleted role of the second C6 fixture. -/
def role_c6b : Role :=
  { id := 1, name := "editor", is_system_role := false, is_active := false,
    is_deleted := true }

/-- Fixture for C9: a live role (id 1) and a live permission (id 1)
with no association yet. -/
def store_c9 : Store :=
  { permissions := [{ id := 1, name := "doc.write", is_active := true,
                      is_deleted := false }],
    roles := [{ id := 1, name := "editor", is_system_role := false,
                is_active := true, is_deleted := false }],
    role_permissions := [], user_roles := [],
    users := [{ id := 1, is_active := true, is_superuser := false }],
    rp_seq := 1, ur_seq := 1 }

theorem eq_of_pairwise_ne_proj {α β : Type} {f : α → β} {l : List α}
    {a b : α} (hp : l.Pairwise (fun x y => f x ≠ f y)) (ha : a ∈ l)
    (hb : b ∈ l) (hf : f a = f b) : a = b := by
  induction l with
  | nil => cases ha
  | cons h t ih =>
    have hp2 := List.pairwise_cons.mp hp
    rcases List.mem_cons.mp ha with ha1 | ha2
    · rcases List.mem_cons.mp hb with hb1 | hb2
      · rw [ha1, hb1]
      · subst ha1
        exact absurd hf (hp2.1 b hb2)
    · rcases List.mem_cons.mp hb with hb1 | hb2
      · subst hb1
        exact absurd hf.symm (hp2.1 a ha2)
      · exact ih hp2.2 ha2 hb2

theorem find?_eq_some_of_unique {α : Type} {l : List α} {pred : α → Bool}
    {a : α} (ha : a ∈ l) (hpa : pred a = true)
    (huniq : ∀ b ∈ l, pred b = true → b = a) :
    l.find? pred = some a := by
  induction l with
  | nil => cases ha
  | cons h t ih =>
    by_cases hh : pred h = true
    · rw [List.find?_cons_of_pos t hh, huniq h (List.mem_cons_self h t) hh]
    · rw [List.find?_cons_of_neg t hh]
      have hat : a ∈ t := by
        rcases List.mem_cons.mp ha with h1 | h2
        · subst h1
          exact absurd hpa hh
        · exact h2
      exact ih hat (fun b hb hpb => huniq b (List.mem_cons_of_mem h hb) hpb)

theorem filter_eq_singleton_of_unique {α : Type} {l : List α}
    {pred : α → Bool} {a : α} (hnd : l.Nodup) (ha : a ∈ l)
    (hpa : pred a = true) (huniq : ∀ b ∈ l, pred b = true → b = a) :
    l.filter pred = [a] := by
  induction l with
  | nil => cases ha
  | cons h t ih =>
    have hnd2 := List.nodup_cons.mp hnd
    by_cases hh : pred h = true
    · have hha : h = a := huniq h (List.mem_cons_self h t) hh
      have ht0 : t.filter pred = [] := by
        rw [List.filter_eq_nil_iff]
        intro b hb hpb
        have hba : b = a := huniq b (List.mem_cons_of_mem h hb) hpb
        exact hnd2.1 (by rw [hha, ← hba]; exact hb)
      rw [List.filter_cons_of_pos hh, hha, ht0]
    · rw [List.filter_cons_of_neg hh]
      have hat : a ∈ t := by
        rcases List.mem_cons.mp ha with h1 | h2
        · subst h1
          exact absurd hpa hh
        · exact h2
      exact ih hnd2.2 hat
        (fun b hb hpb => huniq b (List.mem_cons_of_mem h hb) hpb)

theorem tenant_scoped_key_schema_inj {A B x : String}
    (h : tenant_scoped_key A x = tenant_scoped_key B x) : A = B := by
  have hd := congrArg String.data h
  simp only [tenant_scoped_key, String.data_append] at hd
  exact String.ext
    (List.append_cancel_left (List.append_cancel_right
      (List.append_cancel_right hd)))

theorem foldl_preserves {α σ : Type} (P : σ → Prop) (f : σ → α → σ)
    (hstep : ∀ st x, P st → P (f st x)) :
    ∀ (l : List α) (st : σ), P st → P (l.foldl f st) := by
  intro l
  induction l with
  | nil => intro st h; exact h
  | cons x t ih => intro st h; exact ih (f st x) (hstep st x h)

theorem forall_mem_map_of_forall {α β : Type} {l : List α} {f : α → β}
    {P : β → Prop} (h : ∀ a ∈ l, P (f a)) : ∀ b ∈ l.map f, P b := by
  intro b hb
  rcases List.mem_map.mp hb with ⟨a, ha, rfl⟩
  exact h a ha

/-- C1 (failing-input evaluation).  The claim states that a permission
whose only `RolePermission` link to the role is soft-deleted must not
appear in the user-level resolver output.  In `store_c1` every
`RolePermission` row is soft-deleted, yet `User.get_all_permissions`
still returns `doc.write` for the user: the implemented filter
constrains the `roles` table, never the through rows, so the claimed
iff characterization fails on the code. -/
theorem c1_resolver_ignores_role_permission_flags :
    get_all_permissions store_c1 user_c1 = ["doc.write"] ∧
    store_c1.role_permissions.all (fun x => x.is_deleted) = true := by
  exact ⟨rfl, rfl⟩

/-- C2 (failing-input evaluation).  The claim states that the very next
cached read after `revoke_permissions` reflects the revocation.  On the
code, the bulk `QuerySet.update` emits no `post_save` signal, so the
warmed `role_perms` entry survives the revoke: the next cached read
still answers the pre-mutation list `[doc.write]` although a fresh
resolver run answers `[]`. -/
theorem c2_revoke_permissions_serves_stale_cache :
    (cached_get_permissions_list "clinic1" store_c2 empty_cache role_c2).1 =
      ["doc.write"] ∧
    mutation_ok (revoke_permissions "clinic1" store_c2 warmed_cache_c2
      1 [1]) = true ∧
    (cached_get_permissions_list "clinic1" after_revoke_c2.1
      after_revoke_c2.2 role_c2).1 = ["doc.write"] ∧
    get_permissions_list after_revoke_c2.1 role_c2 = [] := by
  exact ⟨rfl, rfl, rfl, rfl⟩

/-- C6 (failing-input evaluation).  The claim states that a deleted or
inactive hop — including the role itself and the `(role, permission)`
association row — removes the permission from
`Role.get_permissions_list`.  On the code, the `editor` role of
`store_c6` still lists `doc.write` although its own association row is
soft-deleted (the `rolepermission__` filter is satisfied by the `viewer`
association), and the soft-deleted inactive role of `store_c6b` still
lists `doc.write` because the role flags are never consulted. -/
theorem c6_role_permission_list_ignores_hop_filtering :
    get_permissions_list store_c6 role_c6_editor = ["doc.write"] ∧
    get_permissions_list store_c6b role_c6b = ["doc.write"] ∧
    role_c6b.is_deleted = true ∧
    role_c6b.is_active = false := by
  exact ⟨rfl, rfl, rfl, rfl⟩

/-- C3: cache entries written under tenant schema A are never returned
for the same namespace and entity id under a different tenant schema B;
both the read-path key and the invalidation-path keys carry the tenant
schema prefix through `tenant_scoped_key`. -/
theorem c3_tenant_cache_isolation (A B ns eid : String) (c : Cache)
    (v : List String) (h : A ≠ B) :
    tenant_scoped_key A (ns ++ ":" ++ eid) ≠
      tenant_scoped_key B (ns ++ ":" ++ eid) ∧
    cache_get (cache_set c (tenant_scoped_key A (ns ++ ":" ++ eid)) v)
        (tenant_scoped_key B (ns ++ ":" ++ eid)) =
      cache_get c (tenant_scoped_key B (ns ++ ":" ++ eid)) ∧
    (∀ schema rid, role_perms_key schema rid =
      tenant_scoped_key schema ("role_perms:" ++ toString rid)) ∧
    (∀ schema uid, user_perms_key schema uid =
      tenant_scoped_key schema ("user_perms:" ++ toString uid)) := by
  have hne : tenant_scoped_key B (ns ++ ":" ++ eid) ≠
      tenant_scoped_key A (ns ++ ":" ++ eid) :=
    fun he => h (tenant_scoped_key_schema_inj he).symm
  refine ⟨fun he => h (tenant_scoped_key_schema_inj he), ?_,
    fun _ _ => rfl, fun _ _ => rfl⟩
  simp only [cache_get, cache_set]
  rw [if_neg hne]

/-- Witness for C3 at the concrete tenants `tenant1`, `tenant2` and the
shared entry `user_perms:5`. -/
theorem c3_tenant_cache_isolation_witness :
    ("tenant1" : String) ≠ "tenant2" ∧
    cache_get (cache_set empty_cache
        (tenant_scoped_key "tenant1" ("user_perms" ++ ":" ++ "5"))
        ["doc.write"])
        (tenant_scoped_key "tenant2" ("user_perms" ++ ":" ++ "5")) =
      cache_get empty_cache
        (tenant_scoped_key "tenant2" ("user_perms" ++ ":" ++ "5")) :=
  ⟨by decide,
   (c3_tenant_cache_isolation "tenant1" "tenant2" "user_perms" "5"
     empty_cache ["doc.write"] (by decide)).2.1⟩

/-- C8: every `UserRole` mutation event delivered to the signal
receivers — `post_save` with any `created` flag (creation, restore,
single-instance soft delete) and `post_delete` (hard removal) — deletes
exactly the `user_perms` entry of the affected user in the current
tenant; every other key of the shared backend is left unchanged. -/
theorem c8_user_role_invalidation_is_exact (schema : String) (c : Cache)
    (created : Bool) (y : UserRole) :
    invalidate_cache_on_user_role_change schema c created y
        (user_perms_key schema y.user_id) = none ∧
    (∀ k, k ≠ user_perms_key schema y.user_id →
      invalidate_cache_on_user_role_change schema c created y k = c k) ∧
    invalidate_cache_on_user_role_delete schema c y
        (user_perms_key schema y.user_id) = none ∧
    (∀ k, k ≠ user_perms_key schema y.user_id →
      invalidate_cache_on_user_role_delete schema c y k = c k) := by
  refine ⟨?_, ?_, ?_, ?_⟩
  · simp [invalidate_cache_on_user_role_change,
      invalidate_user_permissions_cache, cache_delete]
  · intro k hk
    simp [invalidate_cache_on_user_role_change,
      invalidate_user_permissions_cache, cache_delete, hk]
  · simp [invalidate_cache_on_user_role_delete,
      invalidate_user_permissions_cache, cache_delete]
  · intro k hk
    simp [invalidate_cache_on_user_role_delete,
      invalidate_user_permissions_cache, cache_delete, hk]

/-- Witness for C8 at a concrete event and a concrete unaffected key. -/
theorem c8_user_role_invalidation_is_exact_witness :
    invalidate_cache_on_user_role_change "clinic1" empty_cache true
        { id := 1, user_id := 7, role_id := 2, is_active := true,
          is_deleted := false } (user_perms_key "clinic1" 7) = none ∧
    ("tenant:clinic1:user_perms:8" ≠ user_perms_key "clinic1" 7) ∧
    invalidate_cache_on_user_role_change "clinic1" empty_cache true
        { id := 1, user_id := 7, role_id := 2, is_active := true,
          is_deleted := false } "tenant:clinic1:user_perms:8" =
      empty_cache "tenant:clinic1:user_perms:8" :=
  ⟨(c8_user_role_invalidation_is_exact "clinic1" empty_cache true
      { id := 1, user_id := 7, role_id := 2, is_active := true,
        is_deleted := false }).1,
   by decide,
   (c8_user_role_invalidation_is_exact "clinic1" empty_cache true
      { id := 1, user_id := 7, role_id := 2, is_active := true,
        is_deleted := false }).2.1 "tenant:clinic1:user_perms:8"
     (by decide)⟩

/-- C4 counterexample at the concrete system role of `store_c4`: all
three guarded mutations do fail, but none of them fails with the
403/forbidden class of error (`is_permission_denied` is false — the code
raises a DRF `ValidationError` instead), refuting the claim that a
`ForbiddenOperationError` is raised. -/
theorem c4_counterexample_error_class :
    mutation_ok (revoke_permissions "clinic1" store_c4 empty_cache 1 [1])
      = false ∧
    is_permission_denied (revoke_permissions "clinic1" store_c4
      empty_cache 1 [1]) = false ∧
    mutation_ok (role_destroy "clinic1" store_c4 empty_cache 1) = false ∧
    is_permission_denied (role_destroy "clinic1" store_c4 empty_cache 1)
      = false ∧
    mutation_ok (assign_permissions "clinic1" store_c4 empty_cache 1 [1])
      = false ∧
    is_permission_denied (assign_permissions "clinic1" store_c4
      empty_cache 1 [1]) = false := by
  exact ⟨rfl, rfl, rfl, rfl, rfl, rfl⟩

/-- C5 counterexample: a superuser holding no roles at all.  The claim
states `has_permission(U, name)` returns true for every superuser; on
the code `User.has_permission` has no superuser branch and resolves the
(empty) permission set, answering false. -/
theorem c5_counterexample_superuser_without_roles :
    superuser_c5.is_superuser = true ∧
    store_c5.user_roles = [] ∧
    has_permission store_c5 superuser_c5 "doc.write" = false := by
  exact ⟨rfl, rfl, rfl⟩

/-- C9 counterexample: the duplicate id list `[1, 1]` is not rejected —
`validate_permission_ids` silently deduplicates it to `[1]` and the
assign operation succeeds, refuting the claim that duplicates fail with
a `ValidationError`. -/
theorem c9_counterexample_duplicates_accepted :
    validate_permission_ids store_c9 [1, 1] = .ok [1] ∧
    mutation_ok (assign_permissions "clinic1" store_c9 empty_cache 1
      [1, 1]) = true := by
  exact ⟨rfl, rfl⟩

theorem any_false_fun {α : Type} (l : List α) :
    (l.any fun _ => false) = false := by
  induction l with
  | nil => rfl
  | cons h t ih => simp [ih]

theorem validate_role_id_error_shape (s : Store) (v : Nat) :
    validate_role_id s v = .ok v ∨
    ∃ m, validate_role_id s v = .error (.validation m) := by
  unfold validate_role_id
  cases s.roles.find? (fun r => r.id == v && !r.is_deleted) with
  | none => exact Or.inr ⟨_, rfl⟩
  | some role =>
    by_cases hs : role.is_system_role = true
    · exact Or.inr ⟨"Cannot modify permissions for system roles.",
        by simp [hs]⟩
    · exact Or.inl (by simp [hs])

theorem validate_user_id_error_shape (s : Store) (v : Nat) :
    validate_user_id s v = .ok v ∨
    ∃ m, validate_user_id s v = .error (.validation m) := by
  unfold validate_user_id
  cases s.users.find? (fun u => u.id == v && u.is_active) with
  | none => exact Or.inr ⟨_, rfl⟩
  | some u => exact Or.inl rfl

/-- C4 (amended): every call to `assign_permissions`,
`revoke_permissions` or `role_destroy` on a system role fails with the
DRF `ValidationError` raised at the mutation boundary (the source has no
separate forbidden/403 error class here) — regardless of caller
privileges, which none of these code paths consult — and the
transactional wrapper leaves the store and the cache unchanged. -/
theorem c4_system_role_mutations_always_rejected (schema : String)
    (s : Store) (c : Cache) (r : Role) (pids : List Nat)
    (hnd : roles_ids_unique s) (hr : r ∈ s.roles)
    (hdel : r.is_deleted = false) (hsys : r.is_system_role = true) :
    assign_permissions schema s c r.id pids =
      .error (.validation "Cannot modify permissions for system roles.") ∧
    revoke_permissions schema s c r.id pids =
      .error (.validation "Cannot modify permissions for system roles.") ∧
    role_destroy schema s c r.id =
      .error (.validation "Cannot delete system roles.") ∧
    run_mutation s c (assign_permissions schema s c r.id pids) = (s, c) ∧
    run_mutation s c (revoke_permissions schema s c r.id pids) = (s, c) ∧
    run_mutation s c (role_destroy schema s c r.id) = (s, c) := by
  have hfind : s.roles.find? (fun r2 => r2.id == r.id && !r2.is_deleted) =
      some r := by
    apply find?_eq_some_of_unique hr
    · simp [hdel]
    · intro b hb hpb
      simp only [Bool.and_eq_true, beq_iff_eq, Bool.not_eq_true'] at hpb
      exact eq_of_pairwise_ne_proj hnd hb hr hpb.1
  have hv : validate_role_id s r.id =
      .error (.validation "Cannot modify permissions for system roles.") := by
    simp [validate_role_id, hfind, hsys]
  have ha : assign_permissions schema s c r.id pids =
      .error (.validation "Cannot modify permissions for system roles.") := by
    unfold assign_permissions
    rw [hv]
  have hrv : revoke_permissions schema s c r.id pids =
      .error (.validation "Cannot modify permissions for system roles.") := by
    unfold revoke_permissions
    rw [hv]
  have hd : role_destroy schema s c r.id =
      .error (.validation "Cannot delete system roles.") := by
    simp [role_destroy, hfind, hsys]
  refine ⟨ha, hrv, hd, ?_, ?_, ?_⟩
  · rw [ha]; rfl
  · rw [hrv]; rfl
  · rw [hd]; rfl

/-- Witness for C4 at the concrete system role of `store_c4`. -/
theorem c4_system_role_mutations_always_rejected_witness :
    roles_ids_unique store_c4 ∧ role_c4 ∈ store_c4.roles ∧
    role_c4.is_deleted = false ∧ role_c4.is_system_role = true ∧
    revoke_permissions "clinic1" store_c4 empty_cache role_c4.id [1] =
      .error (.validation "Cannot modify permissions for system roles.") ∧
    role_destroy "clinic1" store_c4 empty_cache role_c4.id =
      .error (.validation "Cannot delete system roles.") :=
  ⟨by unfold roles_ids_unique; decide, by decide, by decide, by decide,
   (c4_system_role_mutations_always_rejected "clinic1" store_c4 empty_cache
     role_c4 [1] (by unfold roles_ids_unique; decide) (by decide)
     (by decide) (by decide)).2.1,
   (c4_system_role_mutations_always_rejected "clinic1" store_c4 empty_cache
     role_c4 [1] (by unfold roles_ids_unique; decide) (by decide)
     (by decide) (by decide)).2.2.1⟩

/-- C5 (amended): the superuser short-circuit is implemented in the
`require_permissions` / `require_any_permission` gate decorators, which
admit an authenticated superuser for every name list without consulting
the resolver (the decision is the same for every store); the model
method `User.has_permission` itself applies no superuser branch, so a
superuser holding no roles gets `false` from it for every name. -/
theorem c5_superuser_short_circuit_is_at_the_gate (s : Store) (u : User)
    (hsup : u.is_superuser = true) :
    (∀ names, require_permissions s true u names = .allowed) ∧
    (∀ names, require_any_permission s true u names = .allowed) ∧
    (s.user_roles = [] → ∀ n, has_permission s u n = false) := by
  refine ⟨?_, ?_, ?_⟩
  · intro names
    simp [require_permissions, hsup]
  · intro names
    simp [require_any_permission, hsup]
  · intro hur n
    have h0 : get_all_permissions s u = [] := by
      unfold get_all_permissions
      rw [hur]
      simp [any_false_fun]
    simp [has_permission, h0]

/-- Witness for C5 at the concrete superuser of `store_c5`. -/
theorem c5_superuser_short_circuit_is_at_the_gate_witness :
    superuser_c5.is_superuser = true ∧
    require_permissions store_c5 true superuser_c5 ["doc.write"] =
      .allowed ∧
    require_any_permission store_c5 true superuser_c5 ["doc.write"] =
      .allowed ∧
    store_c5.user_roles = [] ∧
    has_permission store_c5 superuser_c5 "doc.write" = false :=
  ⟨rfl,
   (c5_superuser_short_circuit_is_at_the_gate store_c5 superuser_c5
     rfl).1 ["doc.write"],
   (c5_superuser_short_circuit_is_at_the_gate store_c5 superuser_c5
     rfl).2.1 ["doc.write"],
   rfl,
   (c5_superuser_short_circuit_is_at_the_gate store_c5 superuser_c5
     rfl).2.2 rfl "doc.write"⟩

/-- C9 (amended): a duplicate id list is not rejected; each id-list
validator silently deduplicates, so every assign/revoke entry point
behaves exactly as if called with the deduplicated list, while an empty
id list does fail with a `ValidationError`. -/
theorem c9_duplicate_ids_silently_deduplicated (schema : String)
    (s : Store) (c : Cache) (rid uid : Nat) (ids : List Nat)
    (hne : ids ≠ []) :
    validate_permission_ids s ids = validate_permission_ids s ids.dedup ∧
    validate_role_ids s ids = validate_role_ids s ids.dedup ∧
    assign_permissions schema s c rid ids =
      assign_permissions schema s c rid ids.dedup ∧
    revoke_permissions schema s c rid ids =
      revoke_permissions schema s c rid ids.dedup ∧
    assign_roles schema s c uid ids =
      assign_roles schema s c uid ids.dedup ∧
    revoke_roles schema s c uid ids =
      revoke_roles schema s c uid ids.dedup ∧
    (∃ m, assign_permissions schema s c rid [] =
      .error (.validation m)) ∧
    (∃ m, assign_roles schema s c uid [] = .error (.validation m)) := by
  have he1 : ids.isEmpty = false := List.isEmpty_eq_false.mpr hne
  have he2 : ids.dedup.isEmpty = false := by
    rw [List.isEmpty_eq_false, ne_eq, List.dedup_eq_nil]
    exact hne
  have hvp : validate_permission_ids s ids =
      validate_permission_ids s ids.dedup := by
    unfold validate_permission_ids
    rw [he1, he2, List.dedup_idem]
  have hvr : validate_role_ids s ids = validate_role_ids s ids.dedup := by
    unfold validate_role_ids
    rw [he1, he2, List.dedup_idem]
  have hap : assign_permissions schema s c rid ids =
      assign_permissions schema s c rid ids.dedup := by
    unfold assign_permissions
    rw [hvp]
  have hrp : revoke_permissions schema s c rid ids =
      revoke_permissions schema s c rid ids.dedup := by
    unfold revoke_permissions
    rw [hvp]
  have har : assign_roles schema s c uid ids =
      assign_roles schema s c uid ids.dedup := by
    unfold assign_roles
    rw [hvr]
  have hrr : revoke_roles schema s c uid ids =
      revoke_roles schema s c uid ids.dedup := by
    unfold revoke_roles
    rw [hvr]
  refine ⟨hvp, hvr, hap, hrp, har, hrr, ?_, ?_⟩
  · rcases validate_role_id_error_shape s rid with hok | ⟨m, herr⟩
    · refine ⟨"At least one permission is required.", ?_⟩
      unfold assign_permissions
      rw [hok]
      rfl
    · refine ⟨m, ?_⟩
      unfold assign_permissions
      rw [herr]
  · rcases validate_user_id_error_shape s uid with hok | ⟨m, herr⟩
    · refine ⟨"At least one role is required.", ?_⟩
      unfold assign_roles
      rw [hok]
      rfl
    · refine ⟨m, ?_⟩
      unfold assign_roles
      rw [herr]

/-- Witness for C9 at the concrete duplicate list `[1, 1]`. -/
theorem c9_duplicate_ids_silently_deduplicated_witness :
    ([1, 1] : List Nat) ≠ [] ∧
    assign_permissions "clinic1" store_c9 empty_cache 1 [1, 1] =
      assign_permissions "clinic1" store_c9 empty_cache 1
        ([1, 1] : List Nat).dedup :=
  ⟨by decide,
   (c9_duplicate_ids_silently_deduplicated "clinic1" store_c9 empty_cache
     1 1 [1, 1] (by decide)).2.2.1⟩

theorem forall_mem_map_preserve {α : Type} {l : List α} {f : α → α}
    {P : α → Prop} (h : ∀ a ∈ l, P a) (hf : ∀ a, P a → P (f a)) :
    ∀ b ∈ l.map f, P b :=
  forall_mem_map_of_forall (fun a ha => hf a (h a ha))

theorem assign_one_permission_flags (schema : String) (role : Role)
    (p : Permission) (sc : Store × Cache) (h : store_flags_ok sc.1) :
    store_flags_ok (assign_one_permission schema role p sc).1 := by
  obtain ⟨h1, h2, h3, h4⟩ := h
  unfold assign_one_permission
  cases hfind : sc.1.role_permissions.find? (fun x =>
      x.role_id == role.id && x.permission_id == p.id) with
  | none =>
    refine ⟨h1, h2, ?_, h4⟩
    intro x hx
    rcases List.mem_append.mp hx with hx1 | hx2
    · exact h3 x hx1
    · rw [List.mem_singleton.mp hx2]
      rfl
  | some x =>
    by_cases hd : x.is_deleted = true
    · simp only [hd, if_true]
      refine ⟨h1, h2, ?_, h4⟩
      apply forall_mem_map_preserve h3
      intro a pa
      unfold rp_restore_update
      by_cases hc : (a.id == x.id) = true
      · simp only [hc, eq_self_iff_true, if_true, flags_ok,
          Bool.false_and, Bool.and_false]
      · simp only [hc, if_false]
        exact pa
    · simp only [Bool.not_eq_true] at hd
      simp only [hd, if_false]
      exact ⟨h1, h2, h3, h4⟩

theorem assign_one_role_flags (schema : String) (user : User) (role : Role)
    (sc : Store × Cache) (h : store_flags_ok sc.1) :
    store_flags_ok (assign_one_role schema user role sc).1 := by
  obtain ⟨h1, h2, h3, h4⟩ := h
  unfold assign_one_role
  cases hfind : sc.1.user_roles.find? (fun y =>
      y.user_id == user.id && y.role_id == role.id) with
  | none =>
    refine ⟨h1, h2, h3, ?_⟩
    intro y hy
    rcases List.mem_append.mp hy with hy1 | hy2
    · exact h4 y hy1
    · rw [List.mem_singleton.mp hy2]
      rfl
  | some y =>
    by_cases hd : y.is_deleted = true
    · simp only [hd, if_true]
      refine ⟨h1, h2, h3, ?_⟩
      apply forall_mem_map_preserve h4
      intro a pa
      unfold ur_restore_update
      by_cases hc : (a.id == y.id) = true
      · simp only [hc, eq_self_iff_true, if_true, flags_ok,
          Bool.false_and, Bool.and_false]
      · simp only [hc, if_false]
        exact pa
    · simp only [Bool.not_eq_true] at hd
      simp only [hd, if_false]
      exact ⟨h1, h2, h3, h4⟩

theorem permission_create_flags {s : Store} {c : Cache} {pid : Nat}
    {name : String} {sc2 : Store × Cache} (h : store_flags_ok s)
    (hok : permission_create s c pid name = .ok sc2) :
    store_flags_ok sc2.1 := by
  obtain ⟨h1, h2, h3, h4⟩ := h
  unfold permission_create at hok
  split at hok
  · exact absurd hok (by simp)
  · split at hok
    · exact absurd hok (by simp)
    · simp only [Except.ok.injEq] at hok
      rw [← hok]
      refine ⟨?_, h2, h3, h4⟩
      intro p hp
      rcases List.mem_append.mp hp with hp1 | hp2
      · exact h1 p hp1
      · rw [List.mem_singleton.mp hp2]
        rfl

theorem role_create_flags {s : Store} {c : Cache} {rid : Nat}
    {name : String} {sc2 : Store × Cache} (h : store_flags_ok s)
    (hok : role_create s c rid name = .ok sc2) :
    store_flags_ok sc2.1 := by
  obtain ⟨h1, h2, h3, h4⟩ := h
  unfold role_create at hok
  split at hok
  · exact absurd hok (by simp)
  · split at hok
    · exact absurd hok (by simp)
    · simp only [Except.ok.injEq] at hok
      rw [← hok]
      refine ⟨h1, ?_, h3, h4⟩
      intro r hr
      rcases List.mem_append.mp hr with hr1 | hr2
      · exact h2 r hr1
      · rw [List.mem_singleton.mp hr2]
        rfl

theorem permission_destroy_flags {schema : String} {s : Store} {c : Cache}
    {pid : Nat} {sc2 : Store × Cache} (h : store_flags_ok s)
    (hok : permission_destroy schema s c pid = .ok sc2) :
    store_flags_ok sc2.1 := by
  obtain ⟨h1, h2, h3, h4⟩ := h
  unfold permission_destroy at hok
  cases hfind : s.permissions.find? (fun p => p.id == pid && !p.is_deleted)
  case none =>
    rw [hfind] at hok
    exact Except.noConfusion hok
  case some q =>
    rw [hfind] at hok
    simp only [Except.ok.injEq] at hok
    rw [← hok]
    refine ⟨?_, h2, h3, h4⟩
    apply forall_mem_map_preserve h1
    intro a pa
    by_cases hc : (a.id == pid) = true
    · simp [hc, flags_ok]
    · simp only [hc, if_false]
      exact pa

theorem permission_restore_flags {schema : String} {s : Store} {c : Cache}
    {pid : Nat} {sc2 : Store × Cache} (h : store_flags_ok s)
    (hok : permission_restore schema s c pid = .ok sc2) :
    store_flags_ok sc2.1 := by
  obtain ⟨h1, h2, h3, h4⟩ := h
  unfold permission_restore at hok
  cases hfind : s.permissions.find? (fun p => p.id == pid && p.is_deleted)
  case none =>
    rw [hfind] at hok
    exact Except.noConfusion hok
  case some q =>
    rw [hfind] at hok
    simp only [Except.ok.injEq] at hok
    rw [← hok]
    refine ⟨?_, h2, h3, h4⟩
    apply forall_mem_map_preserve h1
    intro a pa
    by_cases hc : (a.id == pid) = true
    · simp [hc, flags_ok]
    · simp only [hc, if_false]
      exact pa

theorem role_destroy_flags {schema : String} {s : Store} {c : Cache}
    {rid : Nat} {sc2 : Store × Cache} (h : store_flags_ok s)
    (hok : role_destroy schema s c rid = .ok sc2) :
    store_flags_ok sc2.1 := by
  obtain ⟨h1, h2, h3, h4⟩ := h
  unfold role_destroy at hok
  cases hfind : s.roles.find? (fun r => r.id == rid && !r.is_deleted)
  case none =>
    rw [hfind] at hok
    exact Except.noConfusion hok
  case some q =>
    rw [hfind] at hok
    simp only [] at hok
    split at hok
    · exact Except.noConfusion hok
    · simp only [Except.ok.injEq] at hok
      rw [← hok]
      refine ⟨h1, ?_, h3, h4⟩
      apply forall_mem_map_preserve h2
      intro a pa
      by_cases hc : (a.id == rid) = true
      · simp only [hc, eq_self_iff_true, if_true, flags_ok,
          Bool.false_and, Bool.and_false]
      · simp only [hc, if_false]
        exact pa

theorem role_restore_flags {schema : String} {s : Store} {c : Cache}
    {rid : Nat} {sc2 : Store × Cache} (h : store_flags_ok s)
    (hok : role_restore schema s c rid = .ok sc2) :
    store_flags_ok sc2.1 := by
  obtain ⟨h1, h2, h3, h4⟩ := h
  unfold role_restore at hok
  cases hfind : s.roles.find? (fun r => r.id == rid && r.is_deleted)
  case none =>
    rw [hfind] at hok
    exact Except.noConfusion hok
  case some q =>
    rw [hfind] at hok
    simp only [Except.ok.injEq] at hok
    rw [← hok]
    refine ⟨h1, ?_, h3, h4⟩
    apply forall_mem_map_preserve h2
    intro a pa
    by_cases hc : (a.id == rid) = true
    · simp [hc, flags_ok]
    · simp only [hc, if_false]
      exact pa

theorem assign_permissions_flags {schema : String} {s : Store} {c : Cache}
    {rid : Nat} {ids : List Nat} {sc2 : Store × Cache}
    (h : store_flags_ok s)
    (hok : assign_permissions schema s c rid ids = .ok sc2) :
    store_flags_ok sc2.1 := by
  unfold assign_permissions at hok
  cases hv1 : validate_role_id s rid
  case error e =>
    rw [hv1] at hok
    exact Except.noConfusion hok
  case ok rid2 =>
    rw [hv1] at hok
    cases hv2 : validate_permission_ids s ids
    case error e =>
      rw [hv2] at hok
      exact Except.noConfusion hok
    case ok pids =>
      rw [hv2] at hok
      simp only [] at hok
      cases hf : s.roles.find? (fun r => r.id == rid2 && !r.is_deleted)
      case none =>
        rw [hf] at hok
        exact Except.noConfusion hok
      case some role =>
        rw [hf] at hok
        simp only [] at hok
        split at hok
        · simp only [Except.ok.injEq] at hok
          rw [← hok]
          exact foldl_preserves (fun sc => store_flags_ok sc.1)
            (fun sc p => assign_one_permission schema role p sc)
            (fun st x hst => assign_one_permission_flags schema role x st
              hst) _ (s, c) h
        · exact absurd hok (by simp)

theorem revoke_permissions_flags {schema : String} {s : Store} {c : Cache}
    {rid : Nat} {ids : List Nat} {sc2 : Store × Cache}
    (h : store_flags_ok s)
    (hok : revoke_permissions schema s c rid ids = .ok sc2) :
    store_flags_ok sc2.1 := by
  obtain ⟨h1, h2, h3, h4⟩ := h
  unfold revoke_permissions at hok
  cases hv1 : validate_role_id s rid
  case error e =>
    rw [hv1] at hok
    exact Except.noConfusion hok
  case ok rid2 =>
    rw [hv1] at hok
    cases hv2 : validate_permission_ids s ids
    case error e =>
      rw [hv2] at hok
      exact Except.noConfusion hok
    case ok pids =>
      rw [hv2] at hok
      simp only [] at hok
      cases hf : s.roles.find? (fun r => r.id == rid2 && !r.is_deleted)
      case none =>
        rw [hf] at hok
        exact Except.noConfusion hok
      case some role =>
        rw [hf] at hok
        simp only [Except.ok.injEq] at hok
        rw [← hok]
        refine ⟨h1, h2, ?_, h4⟩
        apply forall_mem_map_preserve h3
        intro a pa
        unfold rp_revoke_update
        by_cases hc : (a.role_id == role.id &&
            pids.contains a.permission_id && !a.is_deleted) = true
        · simp only [hc, eq_self_iff_true, if_true, flags_ok,
          Bool.false_and, Bool.and_false]
        · simp only [hc, if_false]
          exact pa

theorem assign_roles_flags {schema : String} {s : Store} {c : Cache}
    {uid : Nat} {ids : List Nat} {sc2 : Store × Cache}
    (h : store_flags_ok s)
    (hok : assign_roles schema s c uid ids = .ok sc2) :
    store_flags_ok sc2.1 := by
  unfold assign_roles at hok
  cases hv1 : validate_user_id s uid
  case error e =>
    rw [hv1] at hok
    exact Except.noConfusion hok
  case ok uid2 =>
    rw [hv1] at hok
    cases hv2 : validate_role_ids s ids
    case error e =>
      rw [hv2] at hok
      exact Except.noConfusion hok
    case ok rids =>
      rw [hv2] at hok
      simp only [] at hok
      cases hf : s.users.find? (fun u => u.id == uid2 && u.is_active)
      case none =>
        rw [hf] at hok
        exact Except.noConfusion hok
      case some user =>
        rw [hf] at hok
        simp only [] at hok
        split at hok
        · simp only [Except.ok.injEq] at hok
          rw [← hok]
          exact foldl_preserves (fun sc => store_flags_ok sc.1)
            (fun sc r => assign_one_role schema user r sc)
            (fun st x hst => assign_one_role_flags schema user x st hst)
            _ (s, c) h
        · exact absurd hok (by simp)

theorem revoke_roles_flags {schema : String} {s : Store} {c : Cache}
    {uid : Nat} {ids : List Nat} {sc2 : Store × Cache}
    (h : store_flags_ok s)
    (hok : revoke_roles schema s c uid ids = .ok sc2) :
    store_flags_ok sc2.1 := by
  obtain ⟨h1, h2, h3, h4⟩ := h
  unfold revoke_roles at hok
  cases hv1 : validate_user_id s uid
  case error e =>
    rw [hv1] at hok
    exact Except.noConfusion hok
  case ok uid2 =>
    rw [hv1] at hok
    cases hv2 : validate_role_ids s ids
    case error e =>
      rw [hv2] at hok
      exact Except.noConfusion hok
    case ok rids =>
      rw [hv2] at hok
      simp only [] at hok
      cases hf : s.users.find? (fun u => u.id == uid2 && u.is_active)
      case none =>
        rw [hf] at hok
        exact Except.noConfusion hok
      case some user =>
        rw [hf] at hok
        simp only [Except.ok.injEq] at hok
        rw [← hok]
        refine ⟨h1, h2, h3, ?_⟩
        apply forall_mem_map_preserve h4
        intro a pa
        unfold ur_revoke_update
        by_cases hc : (a.user_id == user.id && rids.contains a.role_id &&
            !a.is_deleted) = true
        · simp only [hc, eq_self_iff_true, if_true, flags_ok,
          Bool.false_and, Bool.and_false]
        · simp only [hc, if_false]
          exact pa

/-- C10: every mutation exposed by the RBAC core preserves the
invariant that no row is simultaneously active and deleted: creation
appends rows with `is_active=True, is_deleted=False`, every soft delete
sets `is_deleted=True` together with `is_active=False`, and every
restore sets `is_deleted=False` together with `is_active=True`; a
rejected mutation rolls back to the pre-call store. -/
theorem c10_flag_consistency_preserved_by_all_mutations (schema : String)
    (s : Store) (c : Cache) (pid rid uid : Nat) (name : String)
    (ids : List Nat) (h : store_flags_ok s) :
    store_flags_ok (run_mutation s c (permission_create s c pid name)).1 ∧
    store_flags_ok (run_mutation s c (role_create s c rid name)).1 ∧
    store_flags_ok
      (run_mutation s c (permission_destroy schema s c pid)).1 ∧
    store_flags_ok
      (run_mutation s c (permission_restore schema s c pid)).1 ∧
    store_flags_ok (run_mutation s c (role_destroy schema s c rid)).1 ∧
    store_flags_ok (run_mutation s c (role_restore schema s c rid)).1 ∧
    store_flags_ok
      (run_mutation s c (assign_permissions schema s c rid ids)).1 ∧
    store_flags_ok
      (run_mutation s c (revoke_permissions schema s c rid ids)).1 ∧
    store_flags_ok
      (run_mutation s c (assign_roles schema s c uid ids)).1 ∧
    store_flags_ok
      (run_mutation s c (revoke_roles schema s c uid ids)).1 := by
  have hrun : ∀ (r : Except ApiError (Store × Cache)),
      (∀ sc2, r = .ok sc2 → store_flags_ok sc2.1) →
      store_flags_ok (run_mutation s c r).1 := by
    intro r hr
    cases r with
    | error e => exact h
    | ok sc2 => exact hr sc2 rfl
  refine ⟨?_, ?_, ?_, ?_, ?_, ?_, ?_, ?_, ?_, ?_⟩
  · exact hrun _ (fun sc2 hok => permission_create_flags h hok)
  · exact hrun _ (fun sc2 hok => role_create_flags h hok)
  · exact hrun _ (fun sc2 hok => permission_destroy_flags h hok)
  · exact hrun _ (fun sc2 hok => permission_restore_flags h hok)
  · exact hrun _ (fun sc2 hok => role_destroy_flags h hok)
  · exact hrun _ (fun sc2 hok => role_restore_flags h hok)
  · exact hrun _ (fun sc2 hok => assign_permissions_flags h hok)
  · exact hrun _ (fun sc2 hok => revoke_permissions_flags h hok)
  · exact hrun _ (fun sc2 hok => assign_roles_flags h hok)
  · exact hrun _ (fun sc2 hok => revoke_roles_flags h hok)

/-- Witness for C10 on the concrete `store_c2`. -/
theorem c10_flag_consistency_preserved_witness :
    store_flags_ok store_c2 ∧
    store_flags_ok (run_mutation store_c2 empty_cache
      (revoke_permissions "clinic1" store_c2 empty_cache 1 [1])).1 :=
  ⟨by unfold store_flags_ok flags_ok; decide,
   (c10_flag_consistency_preserved_by_all_mutations "clinic1" store_c2
     empty_cache 1 1 1 "doc.read" [1]
     (by unfold store_flags_ok flags_ok; decide)).2.2.2.2.2.2.2.1⟩

theorem nodup_of_pairwise_ne_proj {α β : Type} {f : α → β} {l : List α}
    (hp : l.Pairwise (fun x y => f x ≠ f y)) : l.Nodup :=
  hp.imp (fun h heq => h (congrArg f heq))

theorem find_role_ok {s : Store} {r : Role} (hnd : roles_ids_unique s)
    (hr : r ∈ s.roles) (hdel : r.is_deleted = false) :
    s.roles.find? (fun r2 => r2.id == r.id && !r2.is_deleted) = some r := by
  apply find?_eq_some_of_unique hr
  · simp [hdel]
  · intro b hb hpb
    simp only [Bool.and_eq_true, beq_iff_eq, Bool.not_eq_true'] at hpb
    exact eq_of_pairwise_ne_proj hnd hb hr hpb.1

theorem find_user_ok {s : Store} {u : User} (hnd : users_ids_unique s)
    (hu : u ∈ s.users) (hact : u.is_active = true) :
    s.users.find? (fun u2 => u2.id == u.id && u2.is_active) = some u := by
  apply find?_eq_some_of_unique hu
  · simp [hact]
  · intro b hb hpb
    simp only [Bool.and_eq_true, beq_iff_eq] at hpb
    exact eq_of_pairwise_ne_proj hnd hb hu hpb.1

theorem validate_role_id_ok {s : Store} {r : Role}
    (hnd : roles_ids_unique s) (hr : r ∈ s.roles)
    (hdel : r.is_deleted = false) (hsys : r.is_system_role = false) :
    validate_role_id s r.id = .ok r.id := by
  simp [validate_role_id, find_role_ok hnd hr hdel, hsys]

theorem validate_user_id_ok {s : Store} {u : User}
    (hnd : users_ids_unique s) (hu : u ∈ s.users)
    (hact : u.is_active = true) :
    validate_user_id s u.id = .ok u.id := by
  simp [validate_user_id, find_user_ok hnd hu hact]

theorem validate_permission_ids_singleton_ok {s : Store} {p : Permission}
    (hp : p ∈ s.permissions) (hpd : p.is_deleted = false) :
    validate_permission_ids s [p.id] = .ok [p.id] := by
  unfold validate_permission_ids
  simp
  exact ⟨p, hp, rfl, hpd, rfl⟩

theorem validate_role_ids_singleton_ok {s : Store} {r : Role}
    (hr : r ∈ s.roles) (hrd : r.is_deleted = false)
    (hra : r.is_active = true) :
    validate_role_ids s [r.id] = .ok [r.id] := by
  unfold validate_role_ids
  simp
  exact ⟨r, hr, rfl, hrd, hra, rfl⟩

theorem filter_permissions_singleton {s : Store} {p : Permission}
    (hnd : permissions_ids_unique s) (hp : p ∈ s.permissions)
    (hpd : p.is_deleted = false) :
    s.permissions.filter (fun q =>
      (([p.id] : List Nat).contains q.id) && !q.is_deleted) = [p] := by
  apply filter_eq_singleton_of_unique (nodup_of_pairwise_ne_proj hnd) hp
  · simp [hpd]
  · intro b hb hpb
    simp only [Bool.and_eq_true, Bool.not_eq_true'] at hpb
    have hid : b.id = p.id := by
      have := hpb.1
      simp only [List.contains_cons, List.contains_nil, Bool.or_false,
        beq_iff_eq] at this
      exact this
    exact eq_of_pairwise_ne_proj hnd hb hp hid

theorem filter_roles_singleton {s : Store} {r : Role}
    (hnd : roles_ids_unique s) (hr : r ∈ s.roles)
    (hrd : r.is_deleted = false) (hra : r.is_active = true) :
    s.roles.filter (fun q =>
      (([r.id] : List Nat).contains q.id) && !q.is_deleted &&
      q.is_active) = [r] := by
  apply filter_eq_singleton_of_unique (nodup_of_pairwise_ne_proj hnd) hr
  · simp [hrd, hra]
  · intro b hb hpb
    simp only [Bool.and_eq_true, Bool.not_eq_true'] at hpb
    have hid : b.id = r.id := by
      have := hpb.1.1
      simp only [List.contains_cons, List.contains_nil, Bool.or_false,
        beq_iff_eq] at this
      exact this
    exact eq_of_pairwise_ne_proj hnd hb hr hid

theorem rp_revoke_update_id (role : Role) (pids : List Nat)
    (z : RolePermission) : (rp_revoke_update role pids z).id = z.id := by
  unfold rp_revoke_update
  split <;> rfl

theorem rp_revoke_update_role_id (role : Role) (pids : List Nat)
    (z : RolePermission) :
    (rp_revoke_update role pids z).role_id = z.role_id := by
  unfold rp_revoke_update
  split <;> rfl

theorem rp_revoke_update_permission_id (role : Role) (pids : List Nat)
    (z : RolePermission) :
    (rp_revoke_update role pids z).permission_id = z.permission_id := by
  unfold rp_revoke_update
  split <;> rfl

theorem rp_restore_update_role_id (xid : Nat) (z : RolePermission) :
    (rp_restore_update xid z).role_id = z.role_id := by
  unfold rp_restore_update
  split <;> rfl

theorem rp_restore_update_permission_id (xid : Nat) (z : RolePermission) :
    (rp_restore_update xid z).permission_id = z.permission_id := by
  unfold rp_restore_update
  split <;> rfl

theorem rp_revoke_update_is_deleted {role : Role} {p : Permission}
    {x : RolePermission} (hxr : x.role_id = role.id)
    (hxp : x.permission_id = p.id) :
    (rp_revoke_update role [p.id] x).is_deleted = true := by
  unfold rp_revoke_update
  by_cases hd : x.is_deleted = true
  · simp [hd]
  · simp only [Bool.not_eq_true] at hd
    simp [hd, hxr, hxp]

theorem rp_revoke_update_of_ne {role : Role} {p : Permission}
    {y : RolePermission} (h : ¬(y.role_id = role.id ∧
      y.permission_id = p.id)) :
    rp_revoke_update role [p.id] y = y := by
  unfold rp_revoke_update
  by_cases h1 : y.role_id = role.id
  · by_cases h2 : y.permission_id = p.id
    · exact absurd ⟨h1, h2⟩ h
    · simp [h2]
  · simp [h1]

theorem rp_restore_after_revoke_self {role : Role} {p : Permission}
    {x : RolePermission} (hxr : x.role_id = role.id)
    (hxp : x.permission_id = p.id) :
    rp_restore_update x.id (rp_revoke_update role [p.id] x) =
      rp_restore_update x.id x := by
  unfold rp_revoke_update rp_restore_update
  by_cases hd : x.is_deleted = true
  · simp [hd]
  · simp only [Bool.not_eq_true] at hd
    simp [hd, hxr, hxp]

theorem rp_pairs_unique_map {s : Store} {f : RolePermission → RolePermission}
    (hf1 : ∀ z, (f z).role_id = z.role_id)
    (hf2 : ∀ z, (f z).permission_id = z.permission_id)
    (h : rp_pairs_unique s) :
    (s.role_permissions.map f).Pairwise (fun a b =>
      ¬(a.role_id = b.role_id ∧ a.permission_id = b.permission_id)) := by
  apply List.Pairwise.map f _ h
  intro a b hn hfe
  apply hn
  constructor
  · rw [← hf1 a, ← hf1 b]
    exact hfe.1
  · rw [← hf2 a, ← hf2 b]
    exact hfe.2

theorem rp_pairs_proj {s : Store} (h : rp_pairs_unique s) :
    s.role_permissions.Pairwise (fun a b =>
      (a.role_id, a.permission_id) ≠ (b.role_id, b.permission_id)) :=
  h.imp (fun hn hfe =>
    hn ⟨congrArg Prod.fst hfe, congrArg Prod.snd hfe⟩)

theorem revoke_permissions_singleton_ok (schema : String) (s : Store)
    (c : Cache) {r : Role} {p : Permission}
    (hnd : roles_ids_unique s) (hr : r ∈ s.roles)
    (hrd : r.is_deleted = false) (hrs : r.is_system_role = false)
    (hp : p ∈ s.permissions) (hpd : p.is_deleted = false) :
    revoke_permissions schema s c r.id [p.id] =
      .ok ({ s with role_permissions :=
        s.role_permissions.map (rp_revoke_update r [p.id]) }, c) := by
  unfold revoke_permissions
  rw [validate_role_id_ok hnd hr hrd hrs]
  simp only []
  rw [validate_permission_ids_singleton_ok hp hpd]
  simp only []
  rw [find_role_ok hnd hr hrd]

theorem assign_permissions_restore_shape (schema : String) (s : Store)
    (c : Cache) {r : Role} {p : Permission} {x : RolePermission}
    (hndr : roles_ids_unique s) (hr : r ∈ s.roles)
    (hrd : r.is_deleted = false) (hrs : r.is_system_role = false)
    (hndp : permissions_ids_unique s) (hp : p ∈ s.permissions)
    (hpd : p.is_deleted = false) (hpair : rp_pairs_unique s)
    (hx : x ∈ s.role_permissions) (hxr : x.role_id = r.id)
    (hxp : x.permission_id = p.id) (hxd : x.is_deleted = true) :
    ∃ c3, assign_permissions schema s c r.id [p.id] =
      .ok ({ s with role_permissions :=
        s.role_permissions.map (rp_restore_update x.id) }, c3) := by
  have hfind : s.role_permissions.find? (fun z =>
      z.role_id == r.id && z.permission_id == p.id) = some x := by
    apply find?_eq_some_of_unique hx
    · simp [hxr, hxp]
    · intro b hb hpb
      simp only [Bool.and_eq_true, beq_iff_eq] at hpb
      apply eq_of_pairwise_ne_proj (rp_pairs_proj hpair) hb hx
      rw [hpb.1, hpb.2, hxr, hxp]
  refine ⟨invalidate_cache_on_role_permission_change schema
    { s with role_permissions :=
        s.role_permissions.map (rp_restore_update x.id) } c false
    { x with is_deleted := false, is_active := true }, ?_⟩
  unfold assign_permissions
  rw [validate_role_id_ok hndr hr hrd hrs]
  simp only []
  rw [validate_permission_ids_singleton_ok hp hpd]
  simp only []
  rw [find_role_ok hndr hr hrd]
  simp only []
  rw [filter_permissions_singleton hndp hp hpd]
  simp only [List.length_cons, List.length_nil, beq_self_eq_true,
    eq_self_iff_true, if_true, List.foldl_cons, List.foldl_nil]
  unfold assign_one_permission
  simp only []
  rw [hfind]
  simp only [hxd, eq_self_iff_true, if_true]

theorem ur_revoke_update_id (user : User) (rids : List Nat)
    (z : UserRole) : (ur_revoke_update user rids z).id = z.id := by
  unfold ur_revoke_update
  split <;> rfl

theorem ur_revoke_update_user_id (user : User) (rids : List Nat)
    (z : UserRole) :
    (ur_revoke_update user rids z).user_id = z.user_id := by
  unfold ur_revoke_update
  split <;> rfl

theorem ur_revoke_update_role_id (user : User) (rids : List Nat)
    (z : UserRole) :
    (ur_revoke_update user rids z).role_id = z.role_id := by
  unfold ur_revoke_update
  split <;> rfl

theorem ur_restore_update_user_id (yid : Nat) (z : UserRole) :
    (ur_restore_update yid z).user_id = z.user_id := by
  unfold ur_restore_update
  split <;> rfl

theorem ur_restore_update_role_id (yid : Nat) (z : UserRole) :
    (ur_restore_update yid z).role_id = z.role_id := by
  unfold ur_restore_update
  split <;> rfl

theorem ur_revoke_update_is_deleted {user : User} {r : Role}
    {y : UserRole} (hyu : y.user_id = user.id) (hyr : y.role_id = r.id) :
    (ur_revoke_update user [r.id] y).is_deleted = true := by
  unfold ur_revoke_update
  by_cases hd : y.is_deleted = true
  · simp [hd]
  · simp only [Bool.not_eq_true] at hd
    simp [hd, hyu, hyr]

theorem ur_revoke_update_of_ne {user : User} {r : Role} {z : UserRole}
    (h : ¬(z.user_id = user.id ∧ z.role_id = r.id)) :
    ur_revoke_update user [r.id] z = z := by
  unfold ur_revoke_update
  by_cases h1 : z.user_id = user.id
  · by_cases h2 : z.role_id = r.id
    · exact absurd ⟨h1, h2⟩ h
    · simp [h2]
  · simp [h1]

theorem ur_restore_after_revoke_self {user : User} {r : Role}
    {y : UserRole} (hyu : y.user_id = user.id) (hyr : y.role_id = r.id) :
    ur_restore_update y.id (ur_revoke_update user [r.id] y) =
      ur_restore_update y.id y := by
  unfold ur_revoke_update ur_restore_update
  by_cases hd : y.is_deleted = true
  · simp [hd]
  · simp only [Bool.not_eq_true] at hd
    simp [hd, hyu, hyr]

theorem ur_pairs_unique_map {s : Store} {f : UserRole → UserRole}
    (hf1 : ∀ z, (f z).user_id = z.user_id)
    (hf2 : ∀ z, (f z).role_id = z.role_id)
    (h : ur_pairs_unique s) :
    (s.user_roles.map f).Pairwise (fun a b =>
      ¬(a.user_id = b.user_id ∧ a.role_id = b.role_id)) := by
  apply List.Pairwise.map f _ h
  intro a b hn hfe
  apply hn
  constructor
  · rw [← hf1 a, ← hf1 b]
    exact hfe.1
  · rw [← hf2 a, ← hf2 b]
    exact hfe.2

theorem ur_pairs_proj {s : Store} (h : ur_pairs_unique s) :
    s.user_roles.Pairwise (fun a b =>
      (a.user_id, a.role_id) ≠ (b.user_id, b.role_id)) :=
  h.imp (fun hn hfe =>
    hn ⟨congrArg Prod.fst hfe, congrArg Prod.snd hfe⟩)

theorem revoke_roles_singleton_ok (schema : String) (s : Store)
    (c : Cache) {u : User} {r : Role}
    (hndu : users_ids_unique s) (hu : u ∈ s.users)
    (hua : u.is_active = true) (hr : r ∈ s.roles)
    (hrd : r.is_deleted = false) (hra : r.is_active = true) :
    revoke_roles schema s c u.id [r.id] =
      .ok ({ s with user_roles :=
        s.user_roles.map (ur_revoke_update u [r.id]) }, c) := by
  unfold revoke_roles
  rw [validate_user_id_ok hndu hu hua]
  simp only []
  rw [validate_role_ids_singleton_ok hr hrd hra]
  simp only []
  rw [find_user_ok hndu hu hua]

theorem assign_roles_restore_shape (schema : String) (s : Store)
    (c : Cache) {u : User} {r : Role} {y : UserRole}
    (hndu : users_ids_unique s) (hu : u ∈ s.users)
    (hua : u.is_active = true) (hndr : roles_ids_unique s)
    (hr : r ∈ s.roles) (hrd : r.is_deleted = false)
    (hra : r.is_active = true) (hpair : ur_pairs_unique s)
    (hy : y ∈ s.user_roles) (hyu : y.user_id = u.id)
    (hyr : y.role_id = r.id) (hyd : y.is_deleted = true) :
    ∃ c3, assign_roles schema s c u.id [r.id] =
      .ok ({ s with user_roles :=
        s.user_roles.map (ur_restore_update y.id) }, c3) := by
  have hfind : s.user_roles.find? (fun z =>
      z.user_id == u.id && z.role_id == r.id) = some y := by
    apply find?_eq_some_of_unique hy
    · simp [hyu, hyr]
    · intro b hb hpb
      simp only [Bool.and_eq_true, beq_iff_eq] at hpb
      apply eq_of_pairwise_ne_proj (ur_pairs_proj hpair) hb hy
      rw [hpb.1, hpb.2, hyu, hyr]
  refine ⟨invalidate_cache_on_user_role_change schema c false
    { y with is_deleted := false, is_active := true }, ?_⟩
  unfold assign_roles
  rw [validate_user_id_ok hndu hu hua]
  simp only []
  rw [validate_role_ids_singleton_ok hr hrd hra]
  simp only []
  rw [find_user_ok hndu hu hua]
  simp only []
  rw [filter_roles_singleton hndr hr hrd hra]
  simp only [List.length_cons, List.length_nil, beq_self_eq_true,
    eq_self_iff_true, if_true, List.foldl_cons, List.foldl_nil]
  unfold assign_one_role
  simp only []
  rw [hfind]
  simp only [hyd, eq_self_iff_true, if_true]

/-- C7: revoking an existing association row and then re-assigning the
same pair restores the original row in place — the store after
revoke-then-assign equals the original store with exactly the row of
that primary key restored (`is_deleted=False, is_active=True`), the
auto-increment sequence untouched (no insertion), and the
`unique_together` pair constraint preserved regardless of soft-delete
state; both for `(role, permission)` and for `(user, role)` pairs. -/
theorem c7_revoke_then_assign_restores_same_row (schema : String)
    (s : Store) (c : Cache) :
    (∀ r p x, roles_ids_unique s → permissions_ids_unique s →
      rp_ids_unique s → rp_pairs_unique s →
      r ∈ s.roles → r.is_deleted = false → r.is_system_role = false →
      p ∈ s.permissions → p.is_deleted = false →
      x ∈ s.role_permissions → x.role_id = r.id →
      x.permission_id = p.id →
      ∃ sc2 sc3,
        revoke_permissions schema s c r.id [p.id] = .ok sc2 ∧
        assign_permissions schema sc2.1 sc2.2 r.id [p.id] = .ok sc3 ∧
        sc3.1.role_permissions =
          s.role_permissions.map (rp_restore_update x.id) ∧
        sc3.1.rp_seq = s.rp_seq ∧
        { x with is_active := true, is_deleted := false } ∈
          sc3.1.role_permissions ∧
        rp_pairs_unique sc3.1) ∧
    (∀ u r y, users_ids_unique s → roles_ids_unique s →
      ur_ids_unique s → ur_pairs_unique s →
      u ∈ s.users → u.is_active = true →
      r ∈ s.roles → r.is_deleted = false → r.is_active = true →
      y ∈ s.user_roles → y.user_id = u.id → y.role_id = r.id →
      ∃ sc2 sc3,
        revoke_roles schema s c u.id [r.id] = .ok sc2 ∧
        assign_roles schema sc2.1 sc2.2 u.id [r.id] = .ok sc3 ∧
        sc3.1.user_roles = s.user_roles.map (ur_restore_update y.id) ∧
        sc3.1.ur_seq = s.ur_seq ∧
        { y with is_active := true, is_deleted := false } ∈
          sc3.1.user_roles ∧
        ur_pairs_unique sc3.1) := by
  constructor
  · intro r p x hndr hndp hndx hpair hr hrd hrs hp hpd hx hxr hxp
    have hrev := revoke_permissions_singleton_ok schema s c hndr hr hrd
      hrs hp hpd
    have hx2 : rp_revoke_update r [p.id] x ∈
        s.role_permissions.map (rp_revoke_update r [p.id]) :=
      List.mem_map_of_mem _ hx
    have hx2r : (rp_revoke_update r [p.id] x).role_id = r.id := by
      rw [rp_revoke_update_role_id]
      exact hxr
    have hx2p : (rp_revoke_update r [p.id] x).permission_id = p.id := by
      rw [rp_revoke_update_permission_id]
      exact hxp
    have hx2d : (rp_revoke_update r [p.id] x).is_deleted = true :=
      rp_revoke_update_is_deleted hxr hxp
    have hpair2 : rp_pairs_unique { s with role_permissions := s.role_permissions.map (rp_revoke_update r [p.id]) } :=
      rp_pairs_unique_map (rp_revoke_update_role_id r [p.id])
        (rp_revoke_update_permission_id r [p.id]) hpair
    obtain ⟨c3, hassign⟩ := assign_permissions_restore_shape schema
      { s with role_permissions := s.role_permissions.map (rp_revoke_update r [p.id]) } c
      hndr hr hrd hrs hndp hp hpd hpair2 hx2 hx2r hx2p hx2d
    rw [rp_revoke_update_id] at hassign
    have hlist : (s.role_permissions.map
        (rp_revoke_update r [p.id])).map (rp_restore_update x.id) =
        s.role_permissions.map (rp_restore_update x.id) := by
      rw [List.map_map]
      apply List.map_congr_left
      intro y hy
      show rp_restore_update x.id (rp_revoke_update r [p.id] y) =
        rp_restore_update x.id y
      by_cases hyx : y.id = x.id
      · have hyeqx : y = x := eq_of_pairwise_ne_proj hndx hy hx hyx
        rw [hyeqx]
        exact rp_restore_after_revoke_self hxr hxp
      · have hne : ¬(y.role_id = r.id ∧ y.permission_id = p.id) := by
          intro he
          apply hyx
          have hyx2 : y = x :=
            eq_of_pairwise_ne_proj (rp_pairs_proj hpair) hy hx
              (by rw [he.1, he.2, hxr, hxp])
          rw [hyx2]
        rw [rp_revoke_update_of_ne hne]
    refine ⟨_, _, hrev, hassign, ?_, rfl, ?_, ?_⟩
    · exact hlist
    · show { x with is_active := true, is_deleted := false } ∈
        (s.role_permissions.map
          (rp_revoke_update r [p.id])).map (rp_restore_update x.id)
      rw [hlist]
      have hres : rp_restore_update x.id x =
          { x with is_active := true, is_deleted := false } := by
        unfold rp_restore_update
        simp
      rw [← hres]
      exact List.mem_map_of_mem _ hx
    · show ((s.role_permissions.map
        (rp_revoke_update r [p.id])).map
          (rp_restore_update x.id)).Pairwise (fun a b =>
        ¬(a.role_id = b.role_id ∧ a.permission_id = b.permission_id))
      rw [hlist]
      exact rp_pairs_unique_map (rp_restore_update_role_id x.id)
        (rp_restore_update_permission_id x.id) hpair
  · intro u r y hndu hndr hndy hpair hu hua hr hrd hra hy hyu hyr
    have hrev := revoke_roles_singleton_ok schema s c hndu hu hua hr hrd
      hra
    have hy2 : ur_revoke_update u [r.id] y ∈
        s.user_roles.map (ur_revoke_update u [r.id]) :=
      List.mem_map_of_mem _ hy
    have hy2u : (ur_revoke_update u [r.id] y).user_id = u.id := by
      rw [ur_revoke_update_user_id]
      exact hyu
    have hy2r : (ur_revoke_update u [r.id] y).role_id = r.id := by
      rw [ur_revoke_update_role_id]
      exact hyr
    have hy2d : (ur_revoke_update u [r.id] y).is_deleted = true :=
      ur_revoke_update_is_deleted hyu hyr
    have hpair2 : ur_pairs_unique { s with user_roles := s.user_roles.map (ur_revoke_update u [r.id]) } :=
      ur_pairs_unique_map (ur_revoke_update_user_id u [r.id])
        (ur_revoke_update_role_id u [r.id]) hpair
    obtain ⟨c3, hassign⟩ := assign_roles_restore_shape schema
      { s with user_roles := s.user_roles.map (ur_revoke_update u [r.id]) } c
      hndu hu hua hndr hr hrd hra hpair2 hy2 hy2u hy2r hy2d
    rw [ur_revoke_update_id] at hassign
    have hlist : (s.user_roles.map
        (ur_revoke_update u [r.id])).map (ur_restore_update y.id) =
        s.user_roles.map (ur_restore_update y.id) := by
      rw [List.map_map]
      apply List.map_congr_left
      intro z hz
      show ur_restore_update y.id (ur_revoke_update u [r.id] z) =
        ur_restore_update y.id z
      by_cases hzy : z.id = y.id
      · have hzeqy : z = y := eq_of_pairwise_ne_proj hndy hz hy hzy
        rw [hzeqy]
        exact ur_restore_after_revoke_self hyu hyr
      · have hne : ¬(z.user_id = u.id ∧ z.role_id = r.id) := by
          intro he
          apply hzy
          have hzy2 : z = y :=
            eq_of_pairwise_ne_proj (ur_pairs_proj hpair) hz hy
              (by rw [he.1, he.2, hyu, hyr])
          rw [hzy2]
        rw [ur_revoke_update_of_ne hne]
    refine ⟨_, _, hrev, hassign, ?_, rfl, ?_, ?_⟩
    · exact hlist
    · show { y with is_active := true, is_deleted := false } ∈
        (s.user_roles.map
          (ur_revoke_update u [r.id])).map (ur_restore_update y.id)
      rw [hlist]
      have hres : ur_restore_update y.id y =
          { y with is_active := true, is_deleted := false } := by
        unfold ur_restore_update
        simp
      rw [← hres]
      exact List.mem_map_of_mem _ hy
    · show ((s.user_roles.map
        (ur_revoke_update u [r.id])).map
          (ur_restore_update y.id)).Pairwise (fun a b =>
        ¬(a.user_id = b.user_id ∧ a.role_id = b.role_id))
      rw [hlist]
      exact ur_pairs_unique_map (ur_restore_update_user_id y.id)
        (ur_restore_update_role_id y.id) hpair

/-- Witness for C7 on `store_c2`: revoking and re-assigning permission
1 of role 1 restores the single association row. -/
theorem c7_revoke_then_assign_restores_same_row_witness :
    roles_ids_unique store_c2 ∧ rp_pairs_unique store_c2 ∧
    (∃ sc2 sc3,
      revoke_permissions "clinic1" store_c2 empty_cache role_c2.id
        [(1 : Nat)] = .ok sc2 ∧
      assign_permissions "clinic1" sc2.1 sc2.2 role_c2.id [(1 : Nat)] =
        .ok sc3 ∧
      sc3.1.role_permissions =
        store_c2.role_permissions.map (rp_restore_update 1) ∧
      sc3.1.rp_seq = store_c2.rp_seq ∧
      ({ id := 1, role_id := 1, permission_id := 1, is_active := true,
         is_deleted := false } : RolePermission) ∈
        sc3.1.role_permissions ∧
      rp_pairs_unique sc3.1) :=
  ⟨by unfold roles_ids_unique; decide,
   by unfold rp_pairs_unique; decide,
   (c7_revoke_then_assign_restores_same_row "clinic1" store_c2
     empty_cache).1 role_c2
     { id := 1, name := "doc.write", is_active := true,
       is_deleted := false }
     { id := 1, role_id := 1, permission_id := 1, is_active := true,
       is_deleted := false }
     (by unfold roles_ids_unique; decide)
     (by unfold permissions_ids_unique; decide)
     (by unfold rp_ids_unique; decide)
     (by unfold rp_pairs_unique; decide)
     (by decide) (by decide) (by decide) (by decide) (by decide)
     (by decide) (by decide) (by decide)⟩

end SaasRbac
